import Mathlib

/-!
Verification of the Inventory API backend (src/main.py) against its
natural-language specification.

The service is a FastAPI application exposing CRUD routes over a single
MongoDB collection `item`.  We shallow-embed the route handlers as pure
functions over an explicit store state (`List Doc`), with MongoDB's
single-document operations (`find_one`, `update_one`, `delete_one`,
insertion) modelled as list operations, and Python-level failure
(`HTTPException` vs. an unhandled exception such as `TypeError`) made
explicit in a result type.
-/

namespace Inventory

/-- Internal MongoDB object identifiers, abstracted as natural numbers
(the numeric value of the 24-hex-digit ObjectId). -/
abbrev OID := Nat

/-- Hex-digit test used by ObjectId parsing (`bson.ObjectId(item_id)`
accepts exactly 24-character hexadecimal strings). -/
def isHexDigitChar (c : Char) : Bool :=
  c.isDigit || ('a' ≤ c && c ≤ 'f') || ('A' ≤ c && c ≤ 'F')

/-- Numeric value of one hex digit. -/
def hexDigitVal (c : Char) : Nat :=
  if c.isDigit then c.toNat - '0'.toNat
  else if 'a' ≤ c && c ≤ 'f' then c.toNat - 'a'.toNat + 10
  else c.toNat - 'A'.toNat + 10

/-- Numeric value of a hex string. -/
def hexVal (s : String) : Nat :=
  s.data.foldl (fun acc c => acc * 16 + hexDigitVal c) 0

/-- Modelled from the external `bson` library used by src/main.py:
`ObjectId(item_id)` succeeds exactly when the string is 24 hexadecimal
characters; on success we take its numeric value as the identifier. -/
def objectIdOfString (s : String) : Option OID :=
  if s.length = 24 && s.data.all isHexDigitChar then some (hexVal s) else none

/-- A stored document of the `item` collection.  MongoDB documents are
schemaless, so every business field may be missing; integer-valued fields
may additionally hold a null (`Option (Option Int)`: `none` = field
missing, `some none` = field present but null, `some (some n)` = integer).
String fields are `Option String` (`none` = missing).  `cost`/`price` are
non-negative numbers in the schema; no arithmetic is ever performed on
them, so they are embedded as rationals. -/
structure Doc where
  _id : OID
  name : Option String := none
  sku : Option String := none
  category : Option String := none
  location : Option String := none
  quantity : Option (Option Int) := none
  min_stock : Option (Option Int) := none
  cost : Option (Option Rat) := none
  price : Option (Option Rat) := none
deriving DecidableEq, Repr

/-- The `item` collection, in MongoDB natural (insertion) order. -/
abbrev Store := List Doc

/-- `db.item.find_one({"_id": oid})`: first document with the given id. -/
def findById (oid : OID) : Store → Option Doc
  | [] => none
  | d :: ds => if d._id = oid then some d else findById oid ds

/-- `db.item.find_one({"sku": v})`: first document whose `sku` equals `v`
(a document with a missing or null `sku` does not match a string value). -/
def findBySku (v : String) : Store → Option Doc
  | [] => none
  | d :: ds => if d.sku = some v then some d else findBySku v ds

/-- `db.item.find_one({"sku": v, "_id": {"$ne": oid}})`. -/
def findBySkuNe (v : String) (oid : OID) : Store → Option Doc
  | [] => none
  | d :: ds =>
    if d.sku = some v ∧ d._id ≠ oid then some d else findBySkuNe v oid ds

/-- `db.item.update_one({"_id": oid}, ...)` with the `$set` effect given by
`f`: applies `f` to the first matching document; returns the new store and
`matched_count` (0 or 1). -/
def update_one (oid : OID) (f : Doc → Doc) : Store → Store × Nat
  | [] => ([], 0)
  | d :: ds =>
    if d._id = oid then (f d :: ds, 1)
    else ((d :: (update_one oid f ds).1, (update_one oid f ds).2))

/-- `db.item.delete_one({"_id": oid})`: removes the first matching
document; returns the new store and `deleted_count` (0 or 1). -/
def delete_one (oid : OID) : Store → Store × Nat
  | [] => ([], 0)
  | d :: ds =>
    if d._id = oid then (ds, 1)
    else ((d :: (delete_one oid ds).1, (delete_one oid ds).2))

/-- `str(ObjectId)`: the 24-character zero-padded lowercase hex form. -/
def oidToString (n : OID) : String :=
  let ds := Nat.toDigits 16 n
  ⟨List.replicate (24 - ds.length) '0' ++ ds⟩

/-- A document as returned to the client: `serialize_doc` renames the
internal `_id` to a string field `id` and keeps every other field. -/
structure SerDoc where
  id : String
  name : Option String
  sku : Option String
  category : Option String
  location : Option String
  quantity : Option (Option Int)
  min_stock : Option (Option Int)
  cost : Option (Option Rat)
  price : Option (Option Rat)
deriving DecidableEq, Repr

/-- `serialize_doc` from src/main.py: pops `_id`, adds `id = str(_id)`. -/
def serialize_doc (d : Doc) : SerDoc :=
  { id := oidToString d._id
    name := d.name
    sku := d.sku
    category := d.category
    location := d.location
    quantity := d.quantity
    min_stock := d.min_stock
    cost := d.cost
    price := d.price }

/-- Outcome of one route handler: a successful JSON response with an HTTP
status, a raised `HTTPException` (status + detail), or an unhandled Python
exception (which FastAPI surfaces as a 500 server failure). -/
inductive HResp (α : Type) where
  | ok (status : Nat) (body : α)
  | httpError (status : Nat) (detail : String)
  | pyError (msg : String)
deriving DecidableEq, Repr

/-- Modelled from the spec: the `Item` schema (schemas.py is not under
src/).  `ItemCreate` requires every item field except the identifier;
validation additionally requires the numeric fields to be non-negative,
which no claim here depends on. -/
structure ItemCreate where
  name : String
  sku : String
  category : String
  location : String
  quantity : Int
  min_stock : Int
  cost : Rat
  price : Rat
deriving DecidableEq, Repr

/-- `ItemUpdate` from src/main.py: every field optional.  A `none` field is
exactly what `model_dump(exclude_none=True)` drops from the payload, so
"supplied" below means `isSome`. -/
structure ItemUpdate where
  name : Option String := none
  sku : Option String := none
  category : Option String := none
  location : Option String := none
  quantity : Option Int := none
  min_stock : Option Int := none
  cost : Option Rat := none
  price : Option Rat := none
deriving DecidableEq, Repr

/-- `not payload` after `data.model_dump(exclude_none=True)`: true iff no
field was supplied. -/
def payloadEmpty (u : ItemUpdate) : Bool :=
  u.name.isNone && u.sku.isNone && u.category.isNone && u.location.isNone &&
  u.quantity.isNone && u.min_stock.isNone && u.cost.isNone && u.price.isNone

/-- The `$set` document of `update_item`: overwrites exactly the supplied
fields of the stored document, leaving the rest untouched. -/
def applyUpdate (u : ItemUpdate) (d : Doc) : Doc :=
  { d with
    name := match u.name with | some v => some v | none => d.name
    sku := match u.sku with | some v => some v | none => d.sku
    category := match u.category with | some v => some v | none => d.category
    location := match u.location with | some v => some v | none => d.location
    quantity := match u.quantity with | some v => some (some v) | none => d.quantity
    min_stock := match u.min_stock with | some v => some (some v) | none => d.min_stock
    cost := match u.cost with | some v => some (some v) | none => d.cost
    price := match u.price with | some v => some (some v) | none => d.price }

/-- Modelled from the spec: `create_document` (database.py is not under
src/) inserts the validated item as a document under the fresh store-chosen
identifier `newId` and returns that identifier; `ItemCreate` requires all
fields, so every field is present in the document. -/
def docOfCreate (newId : OID) (it : ItemCreate) : Doc :=
  { _id := newId
    name := some it.name
    sku := some it.sku
    category := some it.category
    location := some it.location
    quantity := some (some it.quantity)
    min_stock := some (some it.min_stock)
    cost := some (some it.cost)
    price := some (some it.price) }

/-- `int(doc.get("quantity", 0))`: a missing field defaults to `0`, an
integer passes through, and a null value makes `int(None)` raise
`TypeError` (`none` here). -/
def pyIntQty (d : Doc) : Option Int :=
  match d.quantity with
  | none => some 0
  | some v => v

/-- `int(d.get(field, 0) or 0)` as used for the `low_stock` comparison: a
missing field defaults to 0 and `or 0` maps a null (and 0 itself) to 0. -/
def orZeroVal (f : Option (Option Int)) : Int :=
  match f with
  | none => 0
  | some none => 0
  | some (some v) => v

-- ---------------------------------------------------------------------
-- Route handlers (src/main.py)
-- ---------------------------------------------------------------------

/-- `POST /items` (`create_item`): rejects a duplicate SKU with 400 before
inserting; otherwise inserts and returns the re-fetched document with 201.
`newId` is the identifier the store assigns to the insertion. -/
def create_item (newId : OID) (it : ItemCreate) (st : Store) : HResp SerDoc × Store :=
  match findBySku it.sku st with
  | some _ => (.httpError 400 "SKU already exists", st)
  | none =>
    let st' := st ++ [docOfCreate newId it]
    match findById newId st' with
    | some doc => (.ok 201 (serialize_doc doc), st')
    | none => (.pyError "TypeError: serialize_doc(None)", st')

/-- `PUT /items/{item_id}` (`update_item`): parses the id, rejects an empty
payload, rejects a SKU held by a different document, `$set`s the supplied
fields on the matching document, and returns the re-fetched document. -/
def update_item (item_id : String) (data : ItemUpdate) (st : Store) :
    HResp SerDoc × Store :=
  match objectIdOfString item_id with
  | none => (.httpError 400 "Invalid item id", st)
  | some oid =>
    if payloadEmpty data then (.httpError 400 "No fields to update", st)
    else
      match data.sku with
      | some v =>
        if (findBySkuNe v oid st).isSome then
          (.httpError 400 "SKU already in use by another item", st)
        else update_item.write oid data st
      | none => update_item.write oid data st
where
  /-- The `update_one` / 404 / re-fetch tail of `update_item`. -/
  write (oid : OID) (data : ItemUpdate) (st : Store) : HResp SerDoc × Store :=
    match update_one oid (applyUpdate data) st with
    | (st', 0) => (.httpError 404 "Item not found", st')
    | (st', _ + 1) =>
      match findById oid st' with
      | some doc => (.ok 200 (serialize_doc doc), st')
      | none => (.pyError "TypeError: serialize_doc(None)", st')

/-- `POST /items/{item_id}/adjust` (`adjust_stock`): parses the id, 404s if
no document matches, computes `max(0, int(doc.get("quantity", 0)) + delta)`
(an unhandled `TypeError` if the stored quantity is null), persists it and
returns the re-fetched document. -/
def adjust_stock (item_id : String) (delta : Int) (st : Store) :
    HResp SerDoc × Store :=
  match objectIdOfString item_id with
  | none => (.httpError 400 "Invalid item id", st)
  | some oid =>
    match findById oid st with
    | none => (.httpError 404 "Item not found", st)
    | some doc =>
      match pyIntQty doc with
      | none => (.pyError "TypeError: int() argument NoneType", st)
      | some q =>
        let st' :=
          (update_one oid
            (fun d => { d with quantity := some (some (max 0 (q + delta))) }) st).1
        match findById oid st' with
        | some u => (.ok 200 (serialize_doc u), st')
        | none => (.pyError "TypeError: serialize_doc(None)", st')

/-- `DELETE /items/{item_id}` (`delete_item`): parses the id, deletes the
matching document, 404s when nothing matched.  The decorator
`status_code=204` makes FastAPI answer 204 with an empty body (the
framework drops the handler's `{"ok": True}` value for a 204 status, per
the spec: "204 empty body"). -/
def delete_item (item_id : String) (st : Store) : HResp Unit × Store :=
  match objectIdOfString item_id with
  | none => (.httpError 400 "Invalid item id", st)
  | some oid =>
    match delete_one oid st with
    | (st', 0) => (.httpError 404 "Item not found", st')
    | (st', _ + 1) => (.ok 204 (), st')

/-- The three aggregate fields of `GET /items/stats`. -/
structure Stats where
  total_skus : Nat
  total_units : Int
  low_stock : Nat
deriving DecidableEq, Repr

/-- `sum(int(i.get("quantity", 0)) for i in items)`: `none` when some
document stores a null quantity, making `int(None)` raise. -/
def sumQuantities : Store → Option Int
  | [] => some 0
  | d :: ds =>
    match pyIntQty d, sumQuantities ds with
    | some q, some r => some (q + r)
    | _, _ => none

/-- `GET /items/stats` (`inventory_stats`): loads the whole collection and
computes the three aggregates; a null stored quantity aborts with an
unhandled `TypeError` while summing, before `low_stock` is evaluated. -/
def inventory_stats (st : Store) : HResp Stats :=
  match sumQuantities st with
  | none => .pyError "TypeError: int() argument NoneType"
  | some tu =>
    .ok 200
      { total_skus := st.length
        total_units := tu
        low_stock :=
          (st.filter (fun d => orZeroVal d.min_stock > orZeroVal d.quantity)).length }

-- ---------------------------------------------------------------------
-- GET /items : search filter
-- ---------------------------------------------------------------------

/-- One token of a regular expression pattern.  `list_items` hands the raw
query text `q` to MongoDB as `{"$regex": q, "$options": "i"}`, i.e. `q` is
interpreted as a PCRE pattern, not as a literal substring.  We embed the
fragment in which every character is a literal except `.`, which matches
any character other than a newline — faithful to `$regex` for query texts
free of the other metacharacters. -/
inductive RTok where
  | lit (c : Char)
  | dot
deriving DecidableEq, Repr

/-- Reading the query text as a pattern of the embedded fragment. -/
def parsePattern (q : String) : List RTok :=
  q.data.map (fun c => if c = '.' then .dot else .lit c)

/-- Case-insensitive token match (`$options: "i"`): literals compare after
ASCII lowercasing, `.` matches anything but a newline. -/
def tokMatches (t : RTok) (c : Char) : Bool :=
  match t with
  | .dot => c ≠ '\n'
  | .lit l => l.toLower = c.toLower

/-- The pattern matches a prefix of the character list. -/
def matchesAt : List RTok → List Char → Bool
  | [], _ => true
  | _ :: _, [] => false
  | t :: pr, c :: cr => tokMatches t c && matchesAt pr cr

/-- Unanchored regex search: the pattern matches starting at some position
of the character list. -/
def regexSearch (pat : List RTok) : List Char → Bool
  | [] => matchesAt pat []
  | c :: cr => matchesAt pat (c :: cr) || regexSearch pat cr

/-- `{"field": {"$regex": q, "$options": "i"}}` on one document field: a
missing field matches nothing. -/
def regexField (q : String) (f : Option String) : Bool :=
  match f with
  | none => false
  | some s => regexSearch (parsePattern q) s.data

/-- The `$or` condition built by `list_items` for a query text `q`. -/
def docMatchesQ (q : String) (d : Doc) : Bool :=
  regexField q d.name || regexField q d.sku

/-- `GET /items` (`list_items`): builds the filter (note the Python
truthiness tests `if q:` / `if category:` — an empty string adds no
condition), fetches the matching documents via `get_documents` (modelled
from the spec: `find` returns all matching documents in store order), and
serializes them. -/
def list_items (q category : Option String) (st : Store) : List SerDoc :=
  let cond := fun d =>
    (match q with
     | some s => if s = "" then true else docMatchesQ s d
     | none => true)
    &&
    (match category with
     | some c => if c = "" then true else d.category = some c
     | none => true)
  (st.filter cond).map serialize_doc

-- ---------------------------------------------------------------------
-- Spec-side definitions (for refinement comparison only)
-- ---------------------------------------------------------------------

/-- Spec's words: "q is a case-insensitive substring of the item's name or
of its sku".  `containsCI q s` decides whether `q` occurs as a contiguous
substring of `s`, comparing characters after ASCII lowercasing. -/
def prefixCI : List Char → List Char → Bool
  | [], _ => true
  | _ :: _, [] => false
  | a :: as, b :: bs => (a.toLower = b.toLower) && prefixCI as bs

/-- Case-insensitive substring occurrence (spec-side). -/
def containsCI (q : String) (s : String) : Bool :=
  go q.data s.data
where
  go (qs : List Char) : List Char → Bool
    | [] => prefixCI qs []
    | c :: cr => prefixCI qs (c :: cr) || go qs cr

/-- Spec-side field match: `q` a case-insensitive substring of the field
(a missing field matches nothing, as in the store). -/
def specFieldMatch (q : String) (f : Option String) : Bool :=
  match f with
  | none => false
  | some s => containsCI q s

/-- The claim's filter semantics for `GET /items`: substring match on name
or sku, exact category equality, combined with AND. -/
def specListFilter (q category : Option String) (d : Doc) : Bool :=
  (match q with
   | some s => if s = "" then true else specFieldMatch s d.name || specFieldMatch s d.sku
   | none => true)
  &&
  (match category with
   | some c => if c = "" then true else d.category = some c
   | none => true)

/-- Number of stored documents carrying a given SKU. -/
def countSku (v : String) (st : Store) : Nat :=
  (st.filter (fun d => d.sku = some v)).length

-- ---------------------------------------------------------------------
-- Store lemmas
-- ---------------------------------------------------------------------

theorem findById_eq_none (oid : OID) (st : Store) :
    findById oid st = none ↔ ∀ x ∈ st, x._id ≠ oid := by
  induction st with
  | nil => simp [findById]
  | cons d ds ih =>
    by_cases h : d._id = oid
    · simp [findById, h]
    · simp [findById, h, ih]

theorem findById_mem (oid : OID) (st : Store) (d : Doc)
    (h : findById oid st = some d) : d ∈ st ∧ d._id = oid := by
  induction st with
  | nil => simp [findById] at h
  | cons x xs ih =>
    by_cases hx : x._id = oid
    · simp [findById, hx] at h
      subst h; exact ⟨List.mem_cons_self _ _, hx⟩
    · simp [findById, hx] at h
      exact ⟨List.mem_cons_of_mem _ (ih h).1, (ih h).2⟩

theorem update_one_found (oid : OID) (f : Doc → Doc)
    (hf : ∀ x, (f x)._id = x._id) (st : Store) (d : Doc)
    (h : findById oid st = some d) :
    (update_one oid f st).2 = 1 ∧
      findById oid (update_one oid f st).1 = some (f d) := by
  induction st with
  | nil => simp [findById] at h
  | cons x xs ih =>
    by_cases hx : x._id = oid
    · simp only [findById, hx, if_pos, if_true] at h
      cases h
      simp [update_one, hx, findById, hf]
    · simp only [findById, hx, if_neg, if_false, ite_false] at h
      have ih' := ih h
      simp [update_one, hx, findById, ih'.1, ih'.2]

theorem update_one_not_found (oid : OID) (f : Doc → Doc) (st : Store)
    (h : findById oid st = none) : update_one oid f st = (st, 0) := by
  induction st with
  | nil => simp [update_one]
  | cons x xs ih =>
    by_cases hx : x._id = oid
    · simp [findById, hx] at h
    · simp only [findById, hx, ite_false] at h
      simp [update_one, hx, ih h]

theorem delete_one_not_found (oid : OID) (st : Store)
    (h : findById oid st = none) : delete_one oid st = (st, 0) := by
  induction st with
  | nil => simp [delete_one]
  | cons x xs ih =>
    by_cases hx : x._id = oid
    · simp [findById, hx] at h
    · simp only [findById, hx, ite_false] at h
      simp [delete_one, hx, ih h]

theorem filter_ne_of_not_mem (oid : OID) (st : Store)
    (h : ∀ x ∈ st, x._id ≠ oid) :
    st.filter (fun x => x._id ≠ oid) = st :=
  List.filter_eq_self.mpr (fun x hx => by simpa using h x hx)

theorem delete_one_found (oid : OID) (st : Store) (d : Doc)
    (hfind : findById oid st = some d)
    (hnodup : (st.map Doc._id).Nodup) :
    delete_one oid st = (st.filter (fun x => x._id ≠ oid), 1) ∧
      st.length = (st.filter (fun x => x._id ≠ oid)).length + 1 := by
  induction st with
  | nil => simp [findById] at hfind
  | cons x xs ih =>
    simp only [List.map_cons, List.nodup_cons] at hnodup
    by_cases hx : x._id = oid
    · have hxs : ∀ y ∈ xs, y._id ≠ oid := by
        intro y hy hc
        refine hnodup.1 ?_
        rw [hx, ← hc]
        exact List.mem_map_of_mem Doc._id hy
      have hfil : xs.filter (fun x => x._id ≠ oid) = xs :=
        filter_ne_of_not_mem oid xs hxs
      constructor
      · simp only [delete_one, hx, if_pos]
        rw [List.filter_cons, if_neg (by simp [hx]), hfil]
      · rw [List.filter_cons, if_neg (by simp [hx]), hfil]
        simp
    · simp only [findById, hx, ite_false] at hfind
      have ih' := ih hfind hnodup.2
      constructor
      · simp only [delete_one, hx, ite_false]
        rw [List.filter_cons, if_pos (by simp [hx]), ih'.1]
      · rw [List.filter_cons, if_pos (by simp [hx])]
        simpa using ih'.2

theorem findBySku_isSome (v : String) (st : Store) :
    (findBySku v st).isSome = true ↔ ∃ x ∈ st, x.sku = some v := by
  induction st with
  | nil => simp [findBySku]
  | cons d ds ih =>
    by_cases h : d.sku = some v
    · simp [findBySku, h]
    · simp [findBySku, h, ih]

theorem findBySkuNe_isSome (v : String) (oid : OID) (st : Store) :
    (findBySkuNe v oid st).isSome = true ↔
      ∃ x ∈ st, x.sku = some v ∧ x._id ≠ oid := by
  induction st with
  | nil => simp [findBySkuNe]
  | cons d ds ih =>
    by_cases h : d.sku = some v ∧ d._id ≠ oid
    · simp only [findBySkuNe, if_pos h, Option.isSome_some]
      constructor
      · intro _
        exact ⟨d, List.mem_cons_self _ _, h⟩
      · intro _
        trivial
    · simp only [findBySkuNe, h, ite_false]
      rw [ih]
      constructor
      · rintro ⟨x, hx, hp⟩
        exact ⟨x, List.mem_cons_of_mem _ hx, hp⟩
      · rintro ⟨x, hx, hp⟩
        rcases List.mem_cons.mp hx with rfl | hx
        · exact absurd hp h
        · exact ⟨x, hx, hp⟩

theorem findById_append_fresh (oid : OID) (st : Store) (d : Doc)
    (hfresh : ∀ x ∈ st, x._id ≠ oid) (hd : d._id = oid) :
    findById oid (st ++ [d]) = some d := by
  induction st with
  | nil => simp [findById, hd]
  | cons x xs ih =>
    have hx := hfresh x (List.mem_cons_self _ _)
    simp only [List.cons_append, findById, hx, ite_false]
    exact ih (fun y hy => hfresh y (List.mem_cons_of_mem _ hy))

theorem countSku_append_same (v : String) (st : Store) (d : Doc)
    (hd : d.sku = some v) :
    countSku v (st ++ [d]) = countSku v st + 1 := by
  simp [countSku, List.filter_append, hd]

theorem countSku_pos_iff (v : String) (st : Store) :
    1 ≤ countSku v st ↔ ∃ x ∈ st, x.sku = some v := by
  simp only [countSku]
  rw [Nat.one_le_iff_ne_zero]
  constructor
  · intro h
    rcases List.exists_mem_of_length_pos (Nat.pos_of_ne_zero h) with ⟨x, hx⟩
    have := List.mem_filter.mp hx
    exact ⟨x, this.1, by simpa using this.2⟩
  · rintro ⟨x, hx, hv⟩ hlen
    have : x ∈ st.filter (fun d => d.sku = some v) :=
      List.mem_filter.mpr ⟨hx, by simp [hv]⟩
    rw [List.length_eq_zero] at hlen
    simp [hlen] at this

theorem sumQuantities_eq (st : Store)
    (h : ∀ x ∈ st, x.quantity ≠ some none) :
    sumQuantities st = some ((st.map (fun x => orZeroVal x.quantity)).sum) := by
  induction st with
  | nil => simp [sumQuantities]
  | cons d ds ih =>
    have hd := h d (List.mem_cons_self _ _)
    have hq : pyIntQty d = some (orZeroVal d.quantity) := by
      unfold pyIntQty orZeroVal
      match hdq : d.quantity with
      | none => rfl
      | some none => exact absurd hdq hd
      | some (some v) => rfl
    simp [sumQuantities, hq, ih (fun y hy => h y (List.mem_cons_of_mem _ hy))]

theorem sumQuantities_none (st : Store)
    (h : ∃ x ∈ st, x.quantity = some none) : sumQuantities st = none := by
  induction st with
  | nil => simp at h
  | cons d ds ih =>
    rcases h with ⟨x, hx, hq⟩
    rcases List.mem_cons.mp hx with rfl | hx
    · simp [sumQuantities, pyIntQty, hq]
    · rw [sumQuantities, ih ⟨x, hx, hq⟩]
      cases pyIntQty d <;> rfl

-- ---------------------------------------------------------------------
-- Regex fragment vs. substring semantics
-- ---------------------------------------------------------------------

theorem matchesAt_lit (qs : List Char) :
    ∀ s, matchesAt (qs.map RTok.lit) s = prefixCI qs s := by
  induction qs with
  | nil =>
    intro s
    cases s <;> rfl
  | cons a as ih =>
    intro s
    cases s with
    | nil => rfl
    | cons b bs => simp [matchesAt, prefixCI, tokMatches, ih]

theorem regexSearch_lit (qs : List Char) (s : List Char) :
    regexSearch (qs.map RTok.lit) s = containsCI.go qs s := by
  induction s with
  | nil => simp [regexSearch, containsCI.go, matchesAt_lit]
  | cons c cr ih => simp [regexSearch, containsCI.go, matchesAt_lit, ih]

theorem map_parse_lit (l : List Char) (h : ∀ c ∈ l, c ≠ '.') :
    l.map (fun c => if c = '.' then RTok.dot else RTok.lit c) = l.map RTok.lit := by
  induction l with
  | nil => rfl
  | cons c cs ih =>
    simp only [List.map_cons]
    rw [if_neg (h c (List.mem_cons_self _ _)),
      ih (fun x hx => h x (List.mem_cons_of_mem _ hx))]

theorem parsePattern_lit (q : String) (h : ∀ c ∈ q.data, c ≠ '.') :
    parsePattern q = q.data.map RTok.lit := by
  unfold parsePattern
  exact map_parse_lit q.data h

theorem regexField_eq_spec (q : String) (f : Option String)
    (h : ∀ c ∈ q.data, c ≠ '.') : regexField q f = specFieldMatch q f := by
  cases f with
  | none => rfl
  | some s =>
    show regexSearch (parsePattern q) s.data = containsCI q s
    rw [parsePattern_lit q h, regexSearch_lit]
    rfl

theorem no_dot_of_alphanum (s : String) (h : s.data.all Char.isAlphanum) :
    ∀ c ∈ s.data, c ≠ '.' := by
  intro c hc hdot
  have := List.all_eq_true.mp h c hc
  rw [hdot] at this
  simp [Char.isAlphanum, Char.isAlpha, Char.isUpper, Char.isLower,
    Char.isDigit] at this

theorem list_items_eq_spec_filter (q category : Option String) (st : Store)
    (hq : ∀ s, q = some s → ∀ c ∈ s.data, c ≠ '.') :
    list_items q category st
      = (st.filter (specListFilter q category)).map serialize_doc := by
  simp only [list_items, specListFilter]
  congr 1
  apply List.filter_congr
  intro d _
  congr 1
  cases q with
  | none => rfl
  | some s =>
    by_cases hs : s = ""
    · simp [hs]
    · have hnd := hq s rfl
      simp only [hs, if_neg hs, ite_false]
      show docMatchesQ s d = _
      unfold docMatchesQ
      rw [regexField_eq_spec s d.name hnd, regexField_eq_spec s d.sku hnd]

-- ---------------------------------------------------------------------
-- Shared success-path lemmas
-- ---------------------------------------------------------------------

theorem update_item_success (s : String) (oid : OID) (u : ItemUpdate)
    (st : Store) (d : Doc)
    (hid : objectIdOfString s = some oid)
    (hfind : findById oid st = some d)
    (hne : payloadEmpty u = false)
    (hsku : ∀ v, u.sku = some v → findBySkuNe v oid st = none) :
    (update_item s u st).1 = .ok 200 (serialize_doc (applyUpdate u d)) ∧
      findById oid (update_item s u st).2 = some (applyUpdate u d) := by
  have hupd := update_one_found oid (applyUpdate u) (fun x => rfl) st d hfind
  rcases hu : update_one oid (applyUpdate u) st with ⟨st2, n⟩
  rw [hu] at hupd
  obtain ⟨h1, h2⟩ := hupd
  simp only at h1 h2
  subst h1
  cases hsk : u.sku with
  | none =>
    constructor <;>
      simp [update_item, hid, hne, hsk, update_item.write, hu, h2]
  | some v =>
    have hnone := hsku v hsk
    constructor <;>
      simp [update_item, hid, hne, hsk, update_item.write, hu, hnone, h2]

theorem applyUpdate_id (u : ItemUpdate) (d : Doc) :
    (applyUpdate u d)._id = d._id := rfl

-- ---------------------------------------------------------------------
-- Claim theorems
-- ---------------------------------------------------------------------

/-- C1: for every stored item and every integer delta, `adjust_stock`
persists a new quantity equal to `max(0, old quantity + delta)` and
returns the re-fetched item, so the resulting quantity is never
negative. -/
theorem adjust_stock_clamps (s : String) (oid : OID) (delta qv : Int)
    (st : Store) (d : Doc)
    (hid : objectIdOfString s = some oid)
    (hfind : findById oid st = some d)
    (hq : d.quantity = some (some qv)) :
    (adjust_stock s delta st).1
      = .ok 200 (serialize_doc { d with quantity := some (some (max 0 (qv + delta))) })
    ∧ findById oid (adjust_stock s delta st).2
      = some { d with quantity := some (some (max 0 (qv + delta))) }
    ∧ 0 ≤ max 0 (qv + delta) := by
  have hpy : pyIntQty d = some qv := by simp [pyIntQty, hq]
  have hupd := update_one_found oid
    (fun x => { x with quantity := some (some (max 0 (qv + delta))) })
    (fun x => rfl) st d hfind
  refine ⟨?_, ?_, le_max_left 0 _⟩ <;>
    simp [adjust_stock, hid, hfind, hpy, hupd.2]

/-- C2: `create_item` rejects a request whose SKU is already present with
400 "SKU already exists" and leaves the store (hence the count of items
with that SKU) unchanged; otherwise it inserts the item and returns it
with status 201, and the store then contains one more item with that
SKU. -/
theorem create_item_unique_sku (newId : OID) (it : ItemCreate) (st : Store)
    (hfresh : ∀ x ∈ st, x._id ≠ newId) :
    ((∃ x ∈ st, x.sku = some it.sku) →
      create_item newId it st = (.httpError 400 "SKU already exists", st)
      ∧ countSku it.sku (create_item newId it st).2 = countSku it.sku st)
    ∧ ((∀ x ∈ st, x.sku ≠ some it.sku) →
      create_item newId it st
        = (.ok 201 (serialize_doc (docOfCreate newId it)), st ++ [docOfCreate newId it])
      ∧ countSku it.sku (create_item newId it st).2 = countSku it.sku st + 1) := by
  constructor
  · intro hex
    have hs : (findBySku it.sku st).isSome = true := (findBySku_isSome _ _).mpr hex
    rcases Option.isSome_iff_exists.mp hs with ⟨y, hy⟩
    constructor <;> simp [create_item, hy, countSku]
  · intro hall
    have hs : findBySku it.sku st = none := by
      cases h : findBySku it.sku st with
      | none => rfl
      | some y =>
        have : (findBySku it.sku st).isSome = true := by simp [h]
        rcases (findBySku_isSome _ _).mp this with ⟨x, hx, hv⟩
        exact absurd hv (hall x hx)
    have hfid : findById newId (st ++ [docOfCreate newId it])
        = some (docOfCreate newId it) :=
      findById_append_fresh newId st (docOfCreate newId it)
        (fun x hx h => hfresh x hx h) rfl
    constructor
    · simp [create_item, hs, hfid]
    · simp only [create_item, hs, hfid]
      exact countSku_append_same it.sku st (docOfCreate newId it) rfl

/-- C3: for a well-formed id matching a stored document, `delete_item`
removes exactly that document (every other document survives) and
responds with status 204 and an empty body. -/
theorem delete_item_removes (s : String) (oid : OID) (st : Store) (d : Doc)
    (hid : objectIdOfString s = some oid)
    (hfind : findById oid st = some d)
    (hnodup : (st.map Doc._id).Nodup) :
    delete_item s st = (.ok 204 (), st.filter (fun x => x._id ≠ oid))
    ∧ st.length = (st.filter (fun x => x._id ≠ oid)).length + 1
    ∧ d ∉ st.filter (fun x => x._id ≠ oid)
    ∧ ∀ x ∈ st, x._id ≠ oid → x ∈ st.filter (fun x => x._id ≠ oid) := by
  have hdel := delete_one_found oid st d hfind hnodup
  refine ⟨?_, hdel.2, ?_, ?_⟩
  · simp [delete_item, hid, hdel.1]
  · have hdid := (findById_mem oid st d hfind).2
    simp [List.mem_filter, hdid]
  · intro x hx hne
    exact List.mem_filter.mpr ⟨hx, by simp [hne]⟩

/-- C4: `inventory_stats` returns `total_skus` = number of stored items,
`total_units` = sum of their quantities, and `low_stock` = number of items
whose `min_stock` strictly exceeds their quantity (in particular all three
are 0 on an empty collection). -/
theorem inventory_stats_correct (st : Store) (qv mv : Doc → Int)
    (hq : ∀ x ∈ st, x.quantity = some (some (qv x)))
    (hm : ∀ x ∈ st, x.min_stock = some (some (mv x))) :
    inventory_stats st = .ok 200
      { total_skus := st.length
        total_units := (st.map qv).sum
        low_stock := (st.filter (fun x => mv x > qv x)).length } := by
  have hnn : ∀ x ∈ st, x.quantity ≠ some none := by
    intro x hx
    rw [hq x hx]
    simp
  have hsum := sumQuantities_eq st hnn
  have hmap : st.map (fun x => orZeroVal x.quantity) = st.map qv := by
    apply List.map_congr_left
    intro x hx
    rw [hq x hx]
    rfl
  have hfil : st.filter (fun x => orZeroVal x.min_stock > orZeroVal x.quantity)
      = st.filter (fun x => mv x > qv x) := by
    apply List.filter_congr
    intro x hx
    rw [hq x hx, hm x hx]
    rfl
  simp [inventory_stats, hsum, hmap, hfil]

/-- C5: a successful partial update stores exactly the supplied fields and
preserves every unsupplied field of the document (so no unsupplied field
is ever set to null), and returns the re-fetched document. -/
theorem update_item_partial_frame (s : String) (oid : OID) (u : ItemUpdate)
    (st : Store) (d : Doc)
    (hid : objectIdOfString s = some oid)
    (hfind : findById oid st = some d)
    (hne : payloadEmpty u = false)
    (hsku : ∀ v, u.sku = some v → findBySkuNe v oid st = none) :
    (update_item s u st).1 = .ok 200 (serialize_doc (applyUpdate u d))
    ∧ findById oid (update_item s u st).2 = some (applyUpdate u d)
    ∧ (u.name = none → (applyUpdate u d).name = d.name)
    ∧ (∀ v, u.name = some v → (applyUpdate u d).name = some v)
    ∧ (u.sku = none → (applyUpdate u d).sku = d.sku)
    ∧ (∀ v, u.sku = some v → (applyUpdate u d).sku = some v)
    ∧ (u.category = none → (applyUpdate u d).category = d.category)
    ∧ (∀ v, u.category = some v → (applyUpdate u d).category = some v)
    ∧ (u.location = none → (applyUpdate u d).location = d.location)
    ∧ (∀ v, u.location = some v → (applyUpdate u d).location = some v)
    ∧ (u.quantity = none → (applyUpdate u d).quantity = d.quantity)
    ∧ (∀ v, u.quantity = some v → (applyUpdate u d).quantity = some (some v))
    ∧ (u.min_stock = none → (applyUpdate u d).min_stock = d.min_stock)
    ∧ (∀ v, u.min_stock = some v → (applyUpdate u d).min_stock = some (some v))
    ∧ (u.cost = none → (applyUpdate u d).cost = d.cost)
    ∧ (∀ v, u.cost = some v → (applyUpdate u d).cost = some (some v))
    ∧ (u.price = none → (applyUpdate u d).price = d.price)
    ∧ (∀ v, u.price = some v → (applyUpdate u d).price = some (some v)) := by
  have hmain := update_item_success s oid u st d hid hfind hne hsku
  refine ⟨hmain.1, hmain.2, ?_, ?_, ?_, ?_, ?_, ?_, ?_, ?_, ?_, ?_, ?_, ?_,
    ?_, ?_, ?_, ?_⟩ <;>
    first
      | (intro h; simp [applyUpdate, h])
      | (intro v h; simp [applyUpdate, h])

/-- C6: for a well-formed id, an update with an empty payload fails with
400 "No fields to update" with no store access (the outcome is the same
for every store state) and leaves the store unchanged. -/
theorem update_item_empty_payload (s : String) (oid : OID) (u : ItemUpdate)
    (st : Store)
    (hid : objectIdOfString s = some oid)
    (hempty : payloadEmpty u = true) :
    update_item s u st = (.httpError 400 "No fields to update", st) := by
  simp [update_item, hid, hempty]

/-- C7: an update that supplies a `sku` fails with the SKU-collision error
iff some stored item with a different id already has that exact sku; in
particular updating an existing item while re-supplying its own sku
succeeds. -/
theorem update_item_sku_collision (s : String) (oid : OID) (u : ItemUpdate)
    (v : String) (st : Store) (d : Doc)
    (hid : objectIdOfString s = some oid)
    (hsku : u.sku = some v) :
    ((update_item s u st).1 = .httpError 400 "SKU already in use by another item"
      ↔ ∃ x ∈ st, x.sku = some v ∧ x._id ≠ oid)
    ∧ (findById oid st = some d → d.sku = some v →
        (∀ x ∈ st, x.sku = some v → x._id = oid) →
        (update_item s u st).1 = .ok 200 (serialize_doc (applyUpdate u d))) := by
  have hne : payloadEmpty u = false := by simp [payloadEmpty, hsku]
  constructor
  · by_cases hcol : (findBySkuNe v oid st).isSome = true
    · constructor
      · intro _
        exact (findBySkuNe_isSome v oid st).mp hcol
      · intro _
        simp [update_item, hid, hne, hsku, hcol]
    · have hrhs : ¬ ∃ x ∈ st, x.sku = some v ∧ x._id ≠ oid := by
        intro hex
        exact hcol ((findBySkuNe_isSome v oid st).mpr hex)
      constructor
      · intro hres
        exfalso
        cases hf : findById oid st with
        | none =>
          have hup := update_one_not_found oid (applyUpdate u) st hf
          rw [update_item] at hres
          simp [hid, hne, hsku, hcol, update_item.write, hup] at hres
        | some d' =>
          have hnone : ∀ w, u.sku = some w → findBySkuNe w oid st = none := by
            intro w hw
            rw [hsku] at hw
            cases hw
            cases h : findBySkuNe v oid st with
            | none => rfl
            | some y =>
              exact absurd (by simp [h] : (findBySkuNe v oid st).isSome = true) hcol
          have := (update_item_success s oid u st d' hid hf hne hnone).1
          rw [this] at hres
          exact HResp.noConfusion hres
      · intro hex
        exact absurd hex hrhs
  · intro hfind hdv hall
    have hnone : ∀ w, u.sku = some w → findBySkuNe w oid st = none := by
      intro w hw
      rw [hsku] at hw
      cases hw
      cases h : findBySkuNe v oid st with
      | none => rfl
      | some y =>
        rcases (findBySkuNe_isSome v oid st).mp (by simp [h]) with ⟨x, hx, hv, hne'⟩
        exact absurd (hall x hx hv) hne'
    exact (update_item_success s oid u st d hid hfind hne hnone).1

/-- C8: a path id that does not parse as an ObjectId makes `update_item`,
`adjust_stock` and `delete_item` fail with 400 "Invalid item id" with the
store untouched, while a well-formed id with no matching document yields
the distinct 404 "Item not found". -/
theorem malformed_id_rejected (s t : String) (u : ItemUpdate) (delta : Int)
    (st : Store) (oid : OID)
    (hbad : objectIdOfString s = none) :
    update_item s u st = (.httpError 400 "Invalid item id", st)
    ∧ adjust_stock s delta st = (.httpError 400 "Invalid item id", st)
    ∧ delete_item s st = (.httpError 400 "Invalid item id", st)
    ∧ (objectIdOfString t = some oid → findById oid st = none →
        delete_item t st = (.httpError 404 "Item not found", st))
    ∧ (HResp.httpError 400 "Invalid item id" : HResp Unit)
        ≠ .httpError 404 "Item not found" := by
  refine ⟨by simp [update_item, hbad], by simp [adjust_stock, hbad],
    by simp [delete_item, hbad], ?_, by simp⟩
  intro hidt hnone
  simp [delete_item, hidt, delete_one_not_found oid st hnone]

/-- C9 (counterexample): the claim reads the query text as a literal
substring, but `list_items` passes it to the store as a regular
expression: with `q = "x.z"` the item named "xyz" is returned although
"x.z" is not a substring (case-insensitive) of its name "xyz" or its sku
"QQQ", so the result is not the claimed filter of the collection. -/
theorem list_items_regex_counterexample :
    list_items (some "x.z") none
        [{ _id := 1, name := some "xyz", sku := some "QQQ" }]
      = [serialize_doc { _id := 1, name := some "xyz", sku := some "QQQ" }]
    ∧ specListFilter (some "x.z") none
        { _id := 1, name := some "xyz", sku := some "QQQ" } = false := by
  constructor <;> rfl

/-- C9 (amended): `list_items` filters with `q` interpreted as a
case-insensitive regular expression over `name` and `sku`; for `q` made of
alphanumeric characters this coincides with case-insensitive substring
matching, `category` filters by exact equality, the filters combine with
AND, and with no filters the whole collection is returned (an empty array
when nothing matches, never an error). -/
theorem list_items_spec (q category : Option String) (st : Store)
    (hq : ∀ s, q = some s → s.data.all Char.isAlphanum) :
    list_items q category st
      = (st.filter (specListFilter q category)).map serialize_doc
    ∧ list_items none none st = st.map serialize_doc := by
  constructor
  · exact list_items_eq_spec_filter q category st
      (fun s hs => no_dot_of_alphanum s (hq s hs))
  · simp [list_items]

/-- C10 (counterexample): a stored null `quantity` is not treated as 0:
both `adjust_stock` and `inventory_stats` evaluate `int(None)`, an
unhandled `TypeError` (a 500 failure), instead of persisting
`max(0, delta)` resp. counting 0 units. -/
theorem null_quantity_counterexample :
    (adjust_stock "000000000000000000000001" 5
        [{ _id := 1, name := some "a", sku := some "S", quantity := some none }]).1
      = .pyError "TypeError: int() argument NoneType"
    ∧ inventory_stats
        [{ _id := 1, name := some "a", sku := some "S", quantity := some none }]
      = .pyError "TypeError: int() argument NoneType" := by
  constructor <;> rfl

/-- C10 (amended): a missing `quantity` field is treated as 0 by
`adjust_stock`, which then persists `max(0, delta)`; a null `quantity`
instead aborts `adjust_stock`, and `inventory_stats`, with an unhandled
`TypeError`; when no stored quantity is null, stats counts a missing
`quantity` as 0 units and a missing or null `min_stock` (and a missing
`quantity`) as 0 in the `low_stock` comparison. -/
theorem missing_and_null_quantity (s : String) (oid : OID) (delta : Int)
    (st : Store) (d : Doc)
    (hid : objectIdOfString s = some oid)
    (hfind : findById oid st = some d) :
    (d.quantity = none →
      (adjust_stock s delta st).1
        = .ok 200 (serialize_doc { d with quantity := some (some (max 0 delta)) })
      ∧ findById oid (adjust_stock s delta st).2
        = some { d with quantity := some (some (max 0 delta)) })
    ∧ (d.quantity = some none →
        adjust_stock s delta st
          = (.pyError "TypeError: int() argument NoneType", st))
    ∧ ((∃ x ∈ st, x.quantity = some none) →
        inventory_stats st = .pyError "TypeError: int() argument NoneType")
    ∧ ((∀ x ∈ st, x.quantity ≠ some none) →
        inventory_stats st = .ok 200
          { total_skus := st.length
            total_units := (st.map (fun x => orZeroVal x.quantity)).sum
            low_stock := (st.filter
              (fun x => orZeroVal x.min_stock > orZeroVal x.quantity)).length }) := by
  refine ⟨?_, ?_, ?_, ?_⟩
  · intro hmiss
    have hpy : pyIntQty d = some 0 := by simp [pyIntQty, hmiss]
    have hupd := update_one_found oid
      (fun x => { x with quantity := some (some (max 0 (0 + delta))) })
      (fun x => rfl) st d hfind
    have hz : max 0 (0 + delta) = max 0 delta := by rw [zero_add]
    rw [hz] at hupd
    constructor <;>
      simp [adjust_stock, hid, hfind, hpy, hz, hupd.2]
  · intro hnull
    simp [adjust_stock, hid, hfind, pyIntQty, hnull]
  · intro hex
    simp [inventory_stats, sumQuantities_none st hex]
  · intro hnn
    simp [inventory_stats, sumQuantities_eq st hnn]

-- ---------------------------------------------------------------------
-- Witnesses
-- ---------------------------------------------------------------------

/-- Witness for C1: on an item with quantity 10, `delta = -(10 + 5)`
yields the clamped quantity `max 0 (10 + -15) = 0`. -/
theorem adjust_stock_clamps_witness :
    objectIdOfString "000000000000000000000001" = some 1
    ∧ findById 1 [{ _id := 1, name := some "xyz", sku := some "QQQ",
                                                quantity := some (some 10) }]
        = some { _id := 1, name := some "xyz", sku := some "QQQ",
                                                quantity := some (some 10) }
    ∧ (adjust_stock "000000000000000000000001" (-15)
          [{ _id := 1, name := some "xyz", sku := some "QQQ",
                                                quantity := some (some 10) }]).1
        = .ok 200 (serialize_doc { _id := 1, name := some "xyz",
                                                sku := some "QQQ", quantity := some (some (max 0 (10 + -15))) }) :=
  ⟨rfl, rfl,
    (adjust_stock_clamps "000000000000000000000001" 1 (-15) 10
      [{ _id := 1, name := some "xyz", sku := some "QQQ",
                                                quantity := some (some 10) }]
      { _id := 1, name := some "xyz", sku := some "QQQ",
                                                quantity := some (some 10) } rfl rfl rfl).1⟩

/-- Witness for C2: creating a second item with the already-stored SKU "A"
is rejected and the store is unchanged. -/
theorem create_item_unique_sku_witness :
    (∀ x ∈ ([{ _id := 1, name := some "n", sku := some "A" }] : Store),
      x._id ≠ 2)
    ∧ (∃ x ∈ ([{ _id := 1, name := some "n", sku := some "A" }] : Store),
        x.sku = some "A")
    ∧ create_item 2
        { name := "m", sku := "A", category := "c", location := "l",
                                                quantity := 1, min_stock := 0, cost := 0, price := 0 }
        [{ _id := 1, name := some "n", sku := some "A" }]
      = (.httpError 400 "SKU already exists",
          [{ _id := 1, name := some "n", sku := some "A" }]) :=
  ⟨by decide, by decide,
    ((create_item_unique_sku 2
      { name := "m", sku := "A", category := "c", location := "l",
                                                quantity := 1, min_stock := 0, cost := 0, price := 0 }
      [{ _id := 1, name := some "n", sku := some "A" }] (by decide)).1
      (by decide)).1⟩

/-- Witness for C3: deleting the only stored item responds 204 with an
empty body and empties the collection. -/
theorem delete_item_removes_witness :
    objectIdOfString "000000000000000000000001" = some 1
    ∧ delete_item "000000000000000000000001"
        [{ _id := 1, name := some "n", sku := some "A" }]
      = (.ok 204 (),
          ([{ _id := 1, name := some "n", sku := some "A" }] : Store).filter
            (fun x => x._id ≠ 1)) :=
  ⟨rfl,
    (delete_item_removes "000000000000000000000001" 1
      [{ _id := 1, name := some "n", sku := some "A" }]
      { _id := 1, name := some "n", sku := some "A" } rfl rfl (by decide)).1⟩

/-- Witness for C4: one stored item with quantity 5 and min_stock 10
yields `{total_skus := 1, total_units := 5, low_stock := 1}`. -/
theorem inventory_stats_correct_witness :
    (∀ x ∈ ([{ _id := 2, sku := some "s", quantity := some (some 5),
                                                min_stock := some (some 10) }] : Store), x.quantity = some (some 5))
    ∧ inventory_stats [{ _id := 2, sku := some "s", quantity := some (some 5),
                                                min_stock := some (some 10) }]
      = .ok 200 { total_skus := 1, total_units := 5, low_stock := 1 } :=
  ⟨by decide, by
    have h := inventory_stats_correct
      [{ _id := 2, sku := some "s", quantity := some (some 5),
                                                min_stock := some (some 10) }]
      (fun _ => 5) (fun _ => 10) (by decide) (by decide)
    simpa using h⟩

/-- Witness for C5: updating only `name` succeeds and rewrites exactly the
name, keeping every other stored field. -/
theorem update_item_partial_frame_witness :
    objectIdOfString "000000000000000000000001" = some 1
    ∧ payloadEmpty { name := some "nn" } = false
    ∧ (update_item "000000000000000000000001" { name := some "nn" }
          [{ _id := 1, name := some "n", sku := some "A",
                                                quantity := some (some 3) }]).1
        = .ok 200 (serialize_doc (applyUpdate { name := some "nn" }
            { _id := 1, name := some "n", sku := some "A",
                                                quantity := some (some 3) })) :=
  ⟨rfl, rfl,
    (update_item_partial_frame "000000000000000000000001" 1
      { name := some "nn" }
      [{ _id := 1, name := some "n", sku := some "A",
                                                quantity := some (some 3) }]
      { _id := 1, name := some "n", sku := some "A",
                                                quantity := some (some 3) }
      rfl rfl rfl (fun _ h => nomatch h)).1⟩

/-- Witness for C6: an all-empty payload is rejected with 400 for any
store, here a one-item store, which is left unchanged. -/
theorem update_item_empty_payload_witness :
    objectIdOfString "000000000000000000000001" = some 1
    ∧ payloadEmpty {} = true
    ∧ update_item "000000000000000000000001" {}
        [{ _id := 1, name := some "n", sku := some "A" }]
      = (.httpError 400 "No fields to update",
          [{ _id := 1, name := some "n", sku := some "A" }]) :=
  ⟨rfl, rfl,
    update_item_empty_payload "000000000000000000000001" 1 {}
      [{ _id := 1, name := some "n", sku := some "A" }] rfl rfl⟩

/-- Witness for C7: re-supplying an item's own SKU (no other item holds
it) succeeds with 200. -/
theorem update_item_sku_collision_witness :
    objectIdOfString "000000000000000000000001" = some 1
    ∧ (ItemUpdate.sku { sku := some "A" } = some "A")
    ∧ (update_item "000000000000000000000001" { sku := some "A" }
          [{ _id := 1, name := some "n", sku := some "A" }]).1
        = .ok 200 (serialize_doc (applyUpdate { sku := some "A" }
            { _id := 1, name := some "n", sku := some "A" })) :=
  ⟨rfl, rfl,
    (update_item_sku_collision "000000000000000000000001" 1 { sku := some "A" }
      "A" [{ _id := 1, name := some "n", sku := some "A" }]
      { _id := 1, name := some "n", sku := some "A" } rfl rfl).2
      rfl rfl (by decide)⟩

/-- Witness for C8: the malformed id "zz" is rejected with 400 by
`update_item` (and the others), while the well-formed unmatched id yields
404 on delete. -/
theorem malformed_id_rejected_witness :
    objectIdOfString "zz" = none
    ∧ update_item "zz" {} [] = (.httpError 400 "Invalid item id", [])
    ∧ delete_item "000000000000000000000001" []
        = (.httpError 404 "Item not found", []) :=
  ⟨rfl,
    (malformed_id_rejected "zz" "000000000000000000000001" {} 0 [] 1 rfl).1,
    (malformed_id_rejected "zz" "000000000000000000000001" {} 0 [] 1
      rfl).2.2.2.1 rfl rfl⟩

/-- Witness for C9 (amended): the alphanumeric query "Yz" matches the item
named "xyz" case-insensitively, and the result is exactly the spec-side
filter of the collection. -/
theorem list_items_spec_witness :
    ("Yz".data.all Char.isAlphanum = true)
    ∧ list_items (some "Yz") none
        [{ _id := 1, name := some "xyz", sku := some "QQQ" }]
      = (([{ _id := 1, name := some "xyz", sku := some "QQQ" }] : Store).filter
          (specListFilter (some "Yz") none)).map serialize_doc :=
  ⟨by decide,
    (list_items_spec (some "Yz") none
      [{ _id := 1, name := some "xyz", sku := some "QQQ" }]
      (fun s h => by cases h; decide)).1⟩

/-- Witness for C10 (amended): on a document with no `quantity` field,
adjusting by 5 persists `max 0 5 = 5`. -/
theorem missing_and_null_quantity_witness :
    objectIdOfString "000000000000000000000001" = some 1
    ∧ Doc.quantity { _id := 1, name := some "n", sku := some "A" } = none
    ∧ (adjust_stock "000000000000000000000001" 5
          [{ _id := 1, name := some "n", sku := some "A" }]).1
        = .ok 200 (serialize_doc { _id := 1, name := some "n", sku := some "A",
                                                quantity := some (some (max 0 5)) }) :=
  ⟨rfl, rfl,
    ((missing_and_null_quantity "000000000000000000000001" 1 5
      [{ _id := 1, name := some "n", sku := some "A" }]
      { _id := 1, name := some "n", sku := some "A" } rfl rfl).1 rfl).1⟩

end Inventory
